import Mathlib

/-
Shallow embedding of the misis-id client (src/misis_id/client.py,
src/misis_id/models.py, src/misis_id/exceptions.py).

The network is modelled as explicit environments: `authenticate` receives the
outcome of the CSRF fetch and of the login POST, `get_student_info` receives
the outcome of the profile GET (final URL plus the parsed page).  HTML pages
are modelled at the level BeautifulSoup delivers them to the code: an optional
name block and a list of label/value span pairs.

Python string primitives (substring test `in`, `str.split`, `str.strip`) are
embedded as structurally recursive functions on the character list of the
string, so that every definition evaluates by kernel reduction.
-/

namespace MisisId

/-- Error taxonomy of exceptions.py (AuthenticationError, NetworkError,
ParseError, SessionExpiredError) together with pydantic's ValidationError;
`other` stands for any unclassified Python exception (e.g. IndexError). -/
inductive PyErr where
  | authentication (msg : String)
  | network (msg : String)
  | parse (msg : String)
  | sessionExpired (msg : String)
  | validation (msg : String)
  | other (msg : String)
  deriving DecidableEq, Repr

def PyErr.message : PyErr → String
  | .authentication m => m
  | .network m => m
  | .parse m => m
  | .sessionExpired m => m
  | .validation m => m
  | .other m => m

/-- The five documented error kinds: everything except an unclassified
exception. -/
def PyErr.isFiveKind : PyErr → Bool
  | .other _ => false
  | _ => true

/- ---------------- Python string primitives ---------------- -/

/-- Does `needle` occur as a contiguous subsequence of `hay`?  (Python list
slice containment, structural in `hay`.) -/
def subInChars (hay needle : List Char) : Bool :=
  if needle.isPrefixOf hay then true
  else
    match hay with
    | [] => false
    | _ :: t => subInChars t needle

/-- Python's substring test `needle in hay`. -/
def strContains (hay needle : String) : Bool :=
  subInChars hay.data needle.data

/-- Worker for `str.split(sep)` with non-empty `sep`: leftmost,
non-overlapping cuts.  `fuel` bounds the recursion; each step consumes at
least one character, so `fuel = length of the input` suffices. -/
def splitOnCharsAux (sep : List Char) :
    Nat → List Char → List Char → List (List Char)
  | _, [], acc => [acc.reverse]
  | 0, l, acc => [acc.reverse ++ l]
  | fuel + 1, c :: t, acc =>
    if sep.isPrefixOf (c :: t) && !sep.isEmpty then
      acc.reverse :: splitOnCharsAux sep fuel ((c :: t).drop sep.length) []
    else
      splitOnCharsAux sep fuel t (c :: acc)

/-- Python `s.split(sep)` for a non-empty separator. -/
def pySplit (s sep : String) : List String :=
  (splitOnCharsAux sep.data s.data.length s.data []).map List.asString

/-- Python `str.strip()`: drop leading and trailing whitespace. -/
def pyStrip (s : String) : String :=
  ⟨((s.data.dropWhile Char.isWhitespace).reverse.dropWhile
    Char.isWhitespace).reverse⟩

/-- Python `c in s` for a single character. -/
def strHasChar (s : String) (c : Char) : Bool :=
  s.data.contains c

/-- A single-quote character, used in Python error messages. -/
def apos : String := String.singleton (Char.ofNat 39)

/- ---------------- models.py ---------------- -/

/-- Validator of AuthenticationData.login: `if not v or not v.strip()` fails,
else the stripped value is stored. -/
def validate_login (v : String) : Except PyErr String :=
  if pyStrip v = "" then .error (.validation "Логин не может быть пустым")
  else .ok (pyStrip v)

/-- Validator of AuthenticationData.password: `if not v` fails; the value is
stored unchanged (no strip). -/
def validate_password (v : String) : Except PyErr String :=
  if v = "" then .error (.validation "Пароль не может быть пустым")
  else .ok v

structure AuthenticationData where
  login : String
  password : String
  remember_me : Bool
  deriving DecidableEq, Repr

/-- Pydantic construction of AuthenticationData: run the field validators
in field order. -/
def AuthenticationData.make (login password : String) :
    Except PyErr AuthenticationData :=
  match validate_login login with
  | .error e => .error e
  | .ok l =>
    match validate_password password with
    | .error e => .error e
    | .ok p => .ok { login := l, password := p, remember_me := false }

structure SessionInfo where
  api_id : String
  csrf_token : String
  is_authenticated : Bool
  deriving DecidableEq, Repr

/-- Pydantic construction of SessionInfo: api_id and csrf_token must be
non-empty after strip and are stored stripped. -/
def SessionInfo.make (api_id csrf_token : String) (is_auth : Bool) :
    Except PyErr SessionInfo :=
  if pyStrip api_id = "" then .error (.validation "API ID не может быть пустым")
  else if pyStrip csrf_token = "" then
    .error (.validation "CSRF токен не может быть пустым")
  else .ok { api_id := pyStrip api_id, csrf_token := pyStrip csrf_token,
             is_authenticated := is_auth }

structure StudentInfo where
  full_name : String
  record_book_number : String
  study_form : String
  preparation_level : String
  specialization : Option String
  specialty : String
  faculty : String
  course : String
  group : String
  financing_form : String
  dormitory : String
  end_date : String
  personal_email : Option String
  personal_phone : Option String
  corporate_email : Option String
  deriving DecidableEq, Repr

/-- Validator of StudentInfo.full_name: non-empty after strip, stored
stripped. -/
def validate_full_name (v : String) : Except PyErr String :=
  if pyStrip v = "" then .error (.validation "Полное имя не может быть пустым")
  else .ok (pyStrip v)

/-- Validator of StudentInfo.record_book_number: non-empty after strip,
stored stripped. -/
def validate_record_book_number (v : String) : Except PyErr String :=
  if pyStrip v = "" then
    .error (.validation "Номер зачетной книжки не может быть пустым")
  else .ok (pyStrip v)

/-- Validator of the optional email fields: `if v and '@' not in v` fails. -/
def validate_email_field (v : Option String) : Except PyErr (Option String) :=
  match v with
  | none => .ok none
  | some s =>
    if s != "" && !(strHasChar s '@') then
      .error (.validation "Некорректный формат email")
    else .ok (some s)

/-- Pydantic construction of StudentInfo: validators run on full_name,
record_book_number, personal_email and corporate_email (in field order);
other fields have no validator. -/
def StudentInfo.make (full_name record_book_number study_form
    preparation_level : String) (specialization : Option String)
    (specialty faculty course grp financing_form dormitory end_date : String)
    (personal_email personal_phone corporate_email : Option String) :
    Except PyErr StudentInfo :=
  match validate_full_name full_name with
  | .error e => .error e
  | .ok fn =>
    match validate_record_book_number record_book_number with
    | .error e => .error e
    | .ok rb =>
      match validate_email_field personal_email with
      | .error e => .error e
      | .ok pe =>
        match validate_email_field corporate_email with
        | .error e => .error e
        | .ok ce =>
          .ok { full_name := fn, record_book_number := rb,
                study_form := study_form,
                preparation_level := preparation_level,
                specialization := specialization, specialty := specialty,
                faculty := faculty, course := course, group := grp,
                financing_form := financing_form, dormitory := dormitory,
                end_date := end_date, personal_email := pe,
                personal_phone := personal_phone, corporate_email := ce }

/- ---------------- client.py ---------------- -/

/-- One HTTP response as the client sees it: status, reason phrase, body
text, final URL, and the value of the `Location` header (none if absent). -/
structure HttpResponse where
  status : Nat
  reason : String
  text : String
  url : String
  location : Option String
  deriving DecidableEq, Repr

/-- Outcome of one attempt in `_make_request`: either a response arrived or
aiohttp raised a ClientError. -/
inductive AttemptResult where
  | response (r : HttpResponse)
  | clientError (msg : String)

/-- The `for attempt in range(max_retries)` loop of `_make_request`,
structural in the number of remaining iterations.  Returns the result, the
number of requests issued from this attempt on, and the list of backoff
delays slept (2 ^ attempt before each retry). -/
def make_request_loop (responses : Nat → AttemptResult)
    (maxRetries : Nat) :
    Nat → Nat → Except PyErr HttpResponse × Nat × List Nat
  | _, 0 => (.error (.network "Превышено максимальное количество попыток"),
             0, [])
  | attempt, remaining + 1 =>
    match responses attempt with
    | .response r =>
      if 400 ≤ r.status then
        if attempt = maxRetries - 1 then
          (.error (.network ("HTTP " ++ toString r.status ++ ": " ++ r.reason)),
           1, [])
        else
          let rest := make_request_loop responses maxRetries (attempt + 1)
            remaining
          (rest.1, rest.2.1 + 1, 2 ^ attempt :: rest.2.2)
      else
        (.ok r, 1, [])
    | .clientError msg =>
      if attempt = maxRetries - 1 then
        (.error (.network ("Ошибка сети: " ++ msg)), 1, [])
      else
        let rest := make_request_loop responses maxRetries (attempt + 1)
          remaining
        (rest.1, rest.2.1 + 1, 2 ^ attempt :: rest.2.2)

/-- `_make_request`: the retry loop over attempts 0 .. maxRetries - 1. -/
def make_request (responses : Nat → AttemptResult) (maxRetries : Nat) :
    Except PyErr HttpResponse × Nat × List Nat :=
  make_request_loop responses maxRetries 0 maxRetries

/-- Mutable state of MisisClient relevant to the claims: whether an aiohttp
session object is held, whether the client owns it, and `_session_info`. -/
structure ClientState where
  http_session : Bool
  owned_session : Bool
  session_info : Option SessionInfo
  deriving DecidableEq, Repr

/-- `close`: closes the owned aiohttp session; `_session_info` is untouched. -/
def close (st : ClientState) : ClientState :=
  if st.http_session && st.owned_session then { st with http_session := false }
  else st

/-- The `is_authenticated` property of MisisClient. -/
def is_authenticated (st : ClientState) : Bool :=
  match st.session_info with
  | some si => si.is_authenticated
  | none => false

/-- Network environment of one `authenticate` call: the outcome of
`_get_csrf_token` and the outcome of the login POST `_make_request`. -/
structure AuthEnv where
  csrf : Except PyErr String
  post : Except PyErr HttpResponse

/-- The `except` clause of `authenticate`: AuthenticationError, NetworkError
and ParseError re-raise; anything else is wrapped as AuthenticationError. -/
def auth_wrap (e : PyErr) : PyErr :=
  match e with
  | .authentication m => .authentication m
  | .network m => .network m
  | .parse m => .parse m
  | e => .authentication ("Ошибка аутентификации: " ++ e.message)

/-- The `try` body of `authenticate` after credential validation: fetch the
CSRF token, POST the form, inspect the Location header, the status and the
body, extract the api_id from the Location, construct the SessionInfo and
store it.  Errors leave the state unchanged. -/
def authenticate_try (st : ClientState) (env : AuthEnv) :
    Except PyErr SessionInfo × ClientState :=
  match env.csrf with
  | .error e => (.error e, st)
  | .ok csrf_token =>
    match env.post with
    | .error e => (.error e, st)
    | .ok resp =>
      let loc := resp.location.getD ""
      if loc = "" then
        (.error (.authentication "Неверный логин или пароль"), st)
      else if !(strContains loc "/s") then
        (.error (.authentication "Неверный логин или пароль"), st)
      else if resp.status != 302 && resp.status != 200 then
        (.error (.authentication
          ("Неожиданный статус ответа: " ++ toString resp.status)), st)
      else if strContains resp.text "Неверный логин или пароль" then
        (.error (.authentication "Неверный логин или пароль"), st)
      else
        match (pySplit loc "/ru/").get? 1 with
        | none => (.error (.other "IndexError: list index out of range"), st)
        | some rest =>
          match SessionInfo.make ((pySplit rest "/").headD "") csrf_token
              true with
          | .error e => (.error e, st)
          | .ok s => (.ok s, { st with session_info := some s })

/-- `authenticate`: credential validation happens before the `try` block (a
ValidationError propagates raw and no network request is made); the body's
errors go through the `except` wrapping. -/
def authenticate (st : ClientState) (login password : String) (env : AuthEnv) :
    Except PyErr SessionInfo × ClientState :=
  match AuthenticationData.make login password with
  | .error e => (.error e, st)
  | .ok _ =>
    match authenticate_try st env with
    | (.ok s, st2) => (.ok s, st2)
    | (.error e, st2) => (.error (auth_wrap e), st2)

/- ---------------- profile parsing ---------------- -/

/-- BeautifulSoup view of the profile page: the optional `person_name` block
(inner option: the text of its `h3`, if present) and the list of
`person__label` spans with the text of the adjacent `person__value` span
(none if there is no such sibling). -/
structure ProfileHtml where
  person_name : Option (Option String)
  fields : List (String × Option String)
  deriving DecidableEq, Repr

/-- `extract_value`: the first label span whose text contains the caption;
its adjacent value text, stripped; none if label or value span is missing. -/
def extract_value (fields : List (String × Option String)) (caption : String) :
    Option String :=
  match fields.find? (fun p => strContains p.1 caption) with
  | none => none
  | some p => p.2.map pyStrip

/-- The `data` dictionary of `_parse_student_info` as Option-valued fields. -/
structure StudentData where
  full_name : Option String
  record_book_number : Option String
  study_form : Option String
  preparation_level : Option String
  specialization : Option String
  specialty : Option String
  faculty : Option String
  course : Option String
  group : Option String
  financing_form : Option String
  dormitory : Option String
  end_date : Option String
  personal_email : Option String
  personal_phone : Option String
  corporate_email : Option String
  deriving DecidableEq, Repr

/-- Field collection of `_parse_student_info`: full name from the name block
(empty string if the block has no h3, absent if there is no block), the rest
via `extract_value` with the Russian captions. -/
def collect (h : ProfileHtml) : StudentData :=
  { full_name := h.person_name.map (fun h3 => (h3.map pyStrip).getD "")
    record_book_number := extract_value h.fields "Номер зачетки:"
    study_form := extract_value h.fields "Форма обучения:"
    preparation_level := extract_value h.fields "Уровень подготовки:"
    specialization := extract_value h.fields "Специализация:"
    specialty := extract_value h.fields "Специальность:"
    faculty := extract_value h.fields "Факультет:"
    course := extract_value h.fields "Курс:"
    group := extract_value h.fields "Группа:"
    financing_form := extract_value h.fields "Форма финансирования:"
    dormitory := extract_value h.fields "Общежитие:"
    end_date := extract_value h.fields "Дата окончания:"
    personal_email := extract_value h.fields "Личная почта:"
    personal_phone := extract_value h.fields "Личный номер телефона:"
    corporate_email := extract_value h.fields "Корпоративная почта:" }

/-- The `required_fields` list of `_parse_student_info`, paired with the
collected values, in source order. -/
def required_fields (d : StudentData) : List (String × Option String) :=
  [("full_name", d.full_name), ("record_book_number", d.record_book_number),
   ("study_form", d.study_form), ("preparation_level", d.preparation_level),
   ("specialty", d.specialty), ("faculty", d.faculty), ("course", d.course),
   ("group", d.group), ("financing_form", d.financing_form),
   ("dormitory", d.dormitory), ("end_date", d.end_date)]

/-- The first required field whose collected value is None: the one the
`for field in required_fields` loop raises ParseError about. -/
def first_missing (d : StudentData) : Option String :=
  ((required_fields d).find? (fun p => p.2.isNone)).map (fun p => p.1)

/-- The ParseError message naming a missing required field. -/
def missing_msg (f : String) : String :=
  "Обязательное поле " ++ apos ++ f ++ apos ++ " не найдено"

/-- The `try` body of `_parse_student_info`: collect the fields, check the
required list, construct the StudentInfo (whose validators may raise). -/
def parse_try (h : ProfileHtml) : Except PyErr StudentInfo :=
  let d := collect h
  match first_missing d with
  | some f => .error (.parse (missing_msg f))
  | none =>
    StudentInfo.make (d.full_name.getD "") (d.record_book_number.getD "")
      (d.study_form.getD "") (d.preparation_level.getD "") d.specialization
      (d.specialty.getD "") (d.faculty.getD "") (d.course.getD "")
      (d.group.getD "") (d.financing_form.getD "") (d.dormitory.getD "")
      (d.end_date.getD "") d.personal_email d.personal_phone d.corporate_email

/-- The `except` clause of `_parse_student_info`: ParseError re-raises,
anything else is wrapped as ParseError. -/
def parse_wrap (e : PyErr) : PyErr :=
  match e with
  | .parse m => .parse m
  | e => .parse ("Ошибка парсинга информации о студенте: " ++ e.message)

/-- `_parse_student_info`: the try body with its except wrapping. -/
def parse_student_info (h : ProfileHtml) : Except PyErr StudentInfo :=
  match parse_try h with
  | .ok s => .ok s
  | .error e => .error (parse_wrap e)

/-- The `except` clause of `get_student_info`: SessionExpiredError,
NetworkError and ParseError re-raise; anything else is wrapped as
ParseError. -/
def profile_wrap (e : PyErr) : PyErr :=
  match e with
  | .sessionExpired m => .sessionExpired m
  | .network m => .network m
  | .parse m => .parse m
  | e => .parse ("Ошибка получения информации о студенте: " ++ e.message)

/-- `get_student_info`: requires an authenticated session; fetches the
profile page (the environment gives the final URL and the parsed body); a
final URL containing "sign_in" flips the session to unauthenticated and
raises SessionExpired; otherwise the body is parsed. -/
def get_student_info (st : ClientState)
    (fetch : Except PyErr (String × ProfileHtml)) :
    Except PyErr StudentInfo × ClientState :=
  match st.session_info with
  | none => (.error (.sessionExpired "Необходима аутентификация"), st)
  | some si =>
    if !si.is_authenticated then
      (.error (.sessionExpired "Необходима аутентификация"), st)
    else
      match fetch with
      | .error e => (.error (profile_wrap e), st)
      | .ok (url, page) =>
        if strContains url "sign_in" then
          (.error (profile_wrap (.sessionExpired "Сессия истекла")),
           { st with
             session_info := some { si with is_authenticated := false } })
        else
          match parse_student_info page with
          | .error e => (.error (profile_wrap e), st)
          | .ok info => (.ok info, st)

/-- Invariant of claim C9: any stored session that is marked authenticated
has a non-empty account identifier and anti-forgery token. -/
def session_invariant (st : ClientState) : Prop :=
  ∀ si, st.session_info = some si → si.is_authenticated = true →
    si.api_id ≠ "" ∧ si.csrf_token ≠ ""

/- ---------------- helper lemmas ---------------- -/

theorem SessionInfo.make_ok_spec (a c : String) (b : Bool) (s : SessionInfo)
    (h : SessionInfo.make a c b = .ok s) :
    s = ⟨pyStrip a, pyStrip c, b⟩ ∧ pyStrip a ≠ "" ∧ pyStrip c ≠ "" := by
  unfold SessionInfo.make at h
  split at h
  · exact absurd h (by simp)
  · split at h
    · exact absurd h (by simp)
    · cases h
      exact ⟨rfl, by assumption, by assumption⟩

theorem authenticate_try_state (st : ClientState) (env : AuthEnv) :
    (∀ e, (authenticate_try st env).1 = .error e →
      (authenticate_try st env).2 = st) ∧
    (∀ s, (authenticate_try st env).1 = .ok s →
      (authenticate_try st env).2 = { st with session_info := some s } ∧
      s.is_authenticated = true ∧ s.api_id ≠ "" ∧ s.csrf_token ≠ "") := by
  unfold authenticate_try
  rcases env.csrf with e | csrf_token
  · simp
  rcases env.post with e | resp
  · simp
  simp only
  split
  · simp
  split
  · simp
  split
  · simp
  split
  · simp
  split
  · simp
  rename_i rest _
  rcases hmk : SessionInfo.make ((pySplit rest "/").headD "") csrf_token true
    with e | s
  · simp
  · obtain ⟨hs, ha, hc⟩ := SessionInfo.make_ok_spec _ _ _ _ hmk
    refine ⟨by simp, ?_⟩
    intro s2 hs2
    simp only [Except.ok.injEq] at hs2
    subst hs2
    subst hs
    exact ⟨rfl, rfl, ha, hc⟩

theorem authenticate_state (st : ClientState) (l p : String) (env : AuthEnv) :
    (∀ e, (authenticate st l p env).1 = .error e →
      (authenticate st l p env).2 = st) ∧
    (∀ s, (authenticate st l p env).1 = .ok s →
      (authenticate st l p env).2 = { st with session_info := some s } ∧
      s.is_authenticated = true ∧ s.api_id ≠ "" ∧ s.csrf_token ≠ "") := by
  unfold authenticate
  rcases AuthenticationData.make l p with e | a
  · simp
  simp only
  obtain ⟨herr, hok⟩ := authenticate_try_state st env
  rcases htry : authenticate_try st env with ⟨r, st2⟩
  rcases r with e | s
  · have := herr e (by rw [htry])
    rw [htry] at this
    simp only at this
    subst this
    simp
  · have := hok s (by rw [htry])
    rw [htry] at this
    simp only at this
    obtain ⟨h1, h2⟩ := this
    subst h1
    simpa using h2

theorem auth_wrap_kind (e : PyErr) : (auth_wrap e).isFiveKind = true := by
  cases e <;> rfl

theorem profile_wrap_kind (e : PyErr) :
    (∃ m, profile_wrap e = .sessionExpired m) ∨
    (∃ m, profile_wrap e = .network m) ∨
    (∃ m, profile_wrap e = .parse m) := by
  cases e
  case sessionExpired m => exact Or.inl ⟨m, rfl⟩
  case network m => exact Or.inr (Or.inl ⟨m, rfl⟩)
  all_goals exact Or.inr (Or.inr ⟨_, rfl⟩)

theorem auth_data_error_validation (l p : String) (e : PyErr)
    (h : AuthenticationData.make l p = .error e) : ∃ m, e = .validation m := by
  unfold AuthenticationData.make validate_login validate_password at h
  by_cases h1 : pyStrip l = ""
  · simp [h1] at h
    exact ⟨_, h.symm⟩
  · by_cases h2 : p = ""
    · simp [h1, h2] at h
      exact ⟨_, h.symm⟩
    · simp [h1, h2] at h

/- ---------------- claims ---------------- -/

/-- C1: the spec requires that a login POST response be accepted only when
the redirect Location contains the designated marker after "/ru/": for
"/ru/s/12345" success with account id "s", for "/ru/sign_in" an
Authentication error, and for an absent Location an Authentication error.
The code checks only that the substring "/s" occurs somewhere in the
Location, so "/ru/sign_in" (which contains "/s" in "/sign_in") is accepted
and yields the nonsensical account id "sign_in": all four facts below
evaluate the embedded `authenticate` and exhibit the divergence. -/
theorem authenticate_location_check_eval :
    (authenticate ⟨true, true, none⟩ "user" "pass"
        ⟨.ok "tok", .ok ⟨302, "Found", "", "", some "/ru/s/12345"⟩⟩).1
      = .ok ⟨"s", "tok", true⟩ ∧
    (authenticate ⟨true, true, none⟩ "user" "pass"
        ⟨.ok "tok", .ok ⟨302, "Found", "", "", none⟩⟩).1
      = .error (.authentication "Неверный логин или пароль") ∧
    strContains "/ru/sign_in" "/s" = true ∧
    (authenticate ⟨true, true, none⟩ "user" "pass"
        ⟨.ok "tok", .ok ⟨302, "Found", "", "", some "/ru/sign_in"⟩⟩).1
      = .ok ⟨"sign_in", "tok", true⟩ :=
  ⟨rfl, rfl, rfl, rfl⟩

/-- C2 (counterexample): the claim says a password that is empty after
trimming must fail before any network request, but the password validator
checks the untrimmed value only: with password " " validation passes and
`authenticate` consults the network (the CSRF fetch's network error
surfaces). -/
theorem authenticate_blank_password_reaches_network :
    pyStrip " " = "" ∧
    AuthenticationData.make "user" " " = .ok ⟨"user", " ", false⟩ ∧
    authenticate ⟨true, true, none⟩ "user" " "
        ⟨.error (.network "offline"), .error (.network "offline")⟩
      = (.error (.network "offline"), ⟨true, true, none⟩) :=
  ⟨rfl, rfl, rfl⟩

/-- C2 (amended): if the login is empty after trimming, or the password is
empty as given (without trimming), `authenticate` fails with a Validation
error before issuing any network request — the result is the same for every
network environment and the state is unchanged.  (The trim-then-check rule
applies to the login only; the password is checked untrimmed.) -/
theorem authenticate_empty_credentials (st : ClientState)
    (login password : String) (h : pyStrip login = "" ∨ password = "") :
    ∃ m, ∀ env, authenticate st login password env
      = (.error (.validation m), st) := by
  by_cases hl : pyStrip login = ""
  · refine ⟨"Логин не может быть пустым", fun env => ?_⟩
    unfold authenticate AuthenticationData.make validate_login
    simp [hl]
  · have hp : password = "" := h.resolve_left hl
    refine ⟨"Пароль не может быть пустым", fun env => ?_⟩
    unfold authenticate AuthenticationData.make validate_login validate_password
    simp [hl, hp]

/-- C2 (witness): concrete instance of `authenticate_empty_credentials` at
login "" — the call fails with a Validation error, identically for two
different network environments, with the state unchanged. -/
theorem authenticate_empty_credentials_inst :
    ∃ m, ∀ env, authenticate ⟨true, true, none⟩ "" "secret" env
      = (.error (.validation m), ⟨true, true, none⟩) :=
  authenticate_empty_credentials ⟨true, true, none⟩ "" "secret" (Or.inl rfl)

/-- C3 (counterexample): with a prior authenticated session stored, a failed
authenticate call (here: no redirect Location) leaves the old session
intact — is_authenticated still reports true afterwards — and close leaves
the session info in place as well; the claim that the session is destroyed
on failure or close is false. -/
theorem authenticate_failure_keeps_prior_session :
    (authenticate ⟨true, true, some ⟨"s", "tok", true⟩⟩ "user" "badpass"
        ⟨.ok "tok", .ok ⟨200, "OK", "", "", none⟩⟩).1
      = .error (.authentication "Неверный логин или пароль") ∧
    (authenticate ⟨true, true, some ⟨"s", "tok", true⟩⟩ "user" "badpass"
        ⟨.ok "tok", .ok ⟨200, "OK", "", "", none⟩⟩).2
      = ⟨true, true, some ⟨"s", "tok", true⟩⟩ ∧
    is_authenticated ⟨true, true, some ⟨"s", "tok", true⟩⟩ = true ∧
    (close ⟨true, true, some ⟨"s", "tok", true⟩⟩).session_info
      = some ⟨"s", "tok", true⟩ :=
  ⟨rfl, rfl, rfl, rfl⟩

/-- C3 (amended): a Session is created only by a successful authenticate
call — success stores exactly the returned session, which is marked
authenticated; a failed authenticate leaves the client state, including any
prior session, unchanged (so on a fresh client the failure leaves no
session, but a prior session survives); close does not touch the session
info. -/
theorem authenticate_session_lifecycle (st : ClientState) (l p : String)
    (env : AuthEnv) :
    (∀ e, (authenticate st l p env).1 = .error e →
      (authenticate st l p env).2 = st) ∧
    (∀ s, (authenticate st l p env).1 = .ok s →
      (authenticate st l p env).2 = { st with session_info := some s } ∧
      s.is_authenticated = true) ∧
    (close st).session_info = st.session_info := by
  obtain ⟨he, ho⟩ := authenticate_state st l p env
  refine ⟨he, fun s hs => ⟨(ho s hs).1, (ho s hs).2.1⟩, ?_⟩
  unfold close
  split <;> rfl

/-- C3 (witness): `authenticate_session_lifecycle` applied to a fresh client:
a failed call leaves the state unchanged, a successful one stores the
returned authenticated session. -/
theorem authenticate_session_lifecycle_inst :
    (authenticate ⟨true, true, none⟩ "user" "pass"
        ⟨.ok "tok", .ok ⟨302, "Found", "", "", none⟩⟩).2
      = ⟨true, true, none⟩ ∧
    (authenticate ⟨true, true, none⟩ "user" "pass"
        ⟨.ok "tok", .ok ⟨302, "Found", "", "", some "/ru/s/12345"⟩⟩).2
      = ⟨true, true, some ⟨"s", "tok", true⟩⟩ := by
  obtain ⟨he, -, -⟩ := authenticate_session_lifecycle ⟨true, true, none⟩
    "user" "pass" ⟨.ok "tok", .ok ⟨302, "Found", "", "", none⟩⟩
  obtain ⟨-, ho2, -⟩ := authenticate_session_lifecycle ⟨true, true, none⟩
    "user" "pass" ⟨.ok "tok", .ok ⟨302, "Found", "", "", some "/ru/s/12345"⟩⟩
  exact ⟨he (.authentication "Неверный логин или пароль") rfl,
         (ho2 ⟨"s", "tok", true⟩ rfl).1⟩

/-- C4: the session state machine.  With no authenticated session every
get_student_info call fails with SessionExpired, for any fetch outcome (so
in particular no login retry happens).  With an authenticated session, a
profile fetch whose final URL contains "sign_in" flips the stored session to
unauthenticated and raises SessionExpired, and from that flipped state every
subsequent call again fails with SessionExpired, for any fetch outcome,
without changing the state further. -/
theorem session_state_machine (st : ClientState) (si : SessionInfo)
    (url : String) (page : ProfileHtml) :
    (is_authenticated st = false →
      ∀ f, get_student_info st f
        = (.error (.sessionExpired "Необходима аутентификация"), st)) ∧
    (st.session_info = some si → si.is_authenticated = true →
      strContains url "sign_in" = true →
      get_student_info st (.ok (url, page))
        = (.error (.sessionExpired "Сессия истекла"),
           { st with
             session_info := some { si with is_authenticated := false } }) ∧
      ∀ f2, get_student_info
          { st with session_info := some { si with is_authenticated := false } }
          f2
        = (.error (.sessionExpired "Необходима аутентификация"),
           { st with
             session_info := some { si with is_authenticated := false } })) := by
  have hexp : ∀ st2 : ClientState, is_authenticated st2 = false →
      ∀ f, get_student_info st2 f
        = (.error (.sessionExpired "Необходима аутентификация"), st2) := by
    intro st2 hna f
    unfold is_authenticated at hna
    unfold get_student_info
    rcases hsi : st2.session_info with _ | si2
    · rfl
    · rw [hsi] at hna
      simp only at hna
      simp [hna]
  refine ⟨hexp st, fun hsi hflag hurl => ⟨?_, ?_⟩⟩
  · unfold get_student_info
    rw [hsi]
    simp [hflag, hurl, profile_wrap]
  · intro f2
    exact hexp _ (by simp [is_authenticated]) f2

/-- C4 (witness): `session_state_machine` at a concrete authenticated client
whose profile fetch lands on the sign-in page. -/
theorem session_state_machine_inst :
    get_student_info ⟨true, true, some ⟨"s", "tok", true⟩⟩
        (.ok ("https://lk.misis.ru/ru/users/sign_in", ⟨none, []⟩))
      = (.error (.sessionExpired "Сессия истекла"),
         ⟨true, true, some ⟨"s", "tok", false⟩⟩) ∧
    get_student_info ⟨true, true, some ⟨"s", "tok", false⟩⟩
        (.ok ("https://lk.misis.ru/ru/s/profile", ⟨none, []⟩))
      = (.error (.sessionExpired "Необходима аутентификация"),
         ⟨true, true, some ⟨"s", "tok", false⟩⟩) ∧
    get_student_info ⟨true, true, none⟩ (.error (.network "down"))
      = (.error (.sessionExpired "Необходима аутентификация"),
         ⟨true, true, none⟩) := by
  obtain ⟨h1, h2⟩ := session_state_machine ⟨true, true, some ⟨"s", "tok", true⟩⟩
    ⟨"s", "tok", true⟩ "https://lk.misis.ru/ru/users/sign_in" ⟨none, []⟩
  obtain ⟨hflip, hnext⟩ := h2 rfl rfl (by decide)
  obtain ⟨h3, -⟩ := session_state_machine ⟨true, true, none⟩
    ⟨"s", "tok", true⟩ "u" ⟨none, []⟩
  exact ⟨hflip, hnext (.ok ("https://lk.misis.ru/ru/s/profile", ⟨none, []⟩)),
         h3 rfl (.error (.network "down"))⟩

/-- C5: with max_retries = 3 and every response carrying HTTP status at
least 400, `_make_request` issues exactly 3 requests and raises a Network
error with the last status and reason, sleeping 2 ^ attempt time units
between consecutive attempts (delays [2 ^ 0, 2 ^ 1], a non-decreasing
chain); a first response with status below 400 is returned immediately
after a single request with no delay. -/
theorem make_request_retry_behavior (responses : Nat → AttemptResult) :
    ((∀ i, i < 3 → ∃ r, responses i = .response r ∧ 400 ≤ r.status) →
      ∃ r2, responses 2 = .response r2 ∧
        make_request responses 3
          = (.error (.network ("HTTP " ++ toString r2.status ++ ": "
              ++ r2.reason)), 3, [2 ^ 0, 2 ^ 1]) ∧
        List.Chain' (· ≤ ·) [2 ^ 0, 2 ^ 1]) ∧
    (∀ r0, responses 0 = .response r0 → r0.status < 400 →
      make_request responses 3 = (.ok r0, 1, [])) := by
  constructor
  · intro h
    obtain ⟨r0, h0, s0⟩ := h 0 (by norm_num)
    obtain ⟨r1, h1, s1⟩ := h 1 (by norm_num)
    obtain ⟨r2, h2, s2⟩ := h 2 (by norm_num)
    refine ⟨r2, h2, ?_, by simp⟩
    simp [make_request, make_request_loop, h0, h1, h2, s0, s1, s2]
  · intro r0 h0 hlt
    have : ¬ 400 ≤ r0.status := by omega
    simp [make_request, make_request_loop, h0, this]

/-- C5 (witness): `make_request_retry_behavior` against an endpoint that
always answers 500, and against one that answers 200 at once. -/
theorem make_request_retry_behavior_inst :
    make_request
        (fun _ => .response ⟨500, "Internal Server Error", "", "", none⟩) 3
      = (.error (.network ("HTTP " ++ toString 500 ++ ": "
          ++ "Internal Server Error")), 3, [2 ^ 0, 2 ^ 1]) ∧
    make_request (fun _ => .response ⟨200, "OK", "body", "u", none⟩) 3
      = (.ok ⟨200, "OK", "body", "u", none⟩, 1, []) := by
  constructor
  · obtain ⟨r2, h2, heq, -⟩ :=
      (make_request_retry_behavior
        (fun _ => .response ⟨500, "Internal Server Error", "", "", none⟩)).1
        (fun i _ =>
          ⟨⟨500, "Internal Server Error", "", "", none⟩, rfl, by norm_num⟩)
    have hr : r2 = ⟨500, "Internal Server Error", "", "", none⟩ := by
      have h2b : AttemptResult.response ⟨500, "Internal Server Error", "", "",
          none⟩ = .response r2 := h2
      injection h2b with h3
      exact h3.symm
    rw [hr] at heq
    exact heq
  · exact (make_request_retry_behavior _).2 _ rfl (by norm_num)

theorem authenticate_error_five (st : ClientState) (l p : String)
    (env : AuthEnv) (e : PyErr)
    (he : (authenticate st l p env).1 = .error e) : e.isFiveKind = true := by
  unfold authenticate at he
  rcases hmk : AuthenticationData.make l p with e0 | a
  · rw [hmk] at he
    simp only [Except.error.injEq] at he
    obtain ⟨m, hm⟩ := auth_data_error_validation l p e0 hmk
    rw [← he, hm]
    rfl
  · rw [hmk] at he
    rcases htry : authenticate_try st env with ⟨r, st2⟩
    rw [htry] at he
    rcases r with e1 | s
    · simp only [Except.error.injEq] at he
      rw [← he]
      exact auth_wrap_kind e1
    · simp at he

theorem get_student_info_error_shape (st : ClientState)
    (fetch : Except PyErr (String × ProfileHtml)) (e : PyErr)
    (he : (get_student_info st fetch).1 = .error e) :
    (∃ m, e = .sessionExpired m) ∨ (∃ m, e = .network m) ∨
    (∃ m, e = .parse m) := by
  have hw : ∀ e0, profile_wrap e0 = e →
      (∃ m, e = .sessionExpired m) ∨ (∃ m, e = .network m) ∨
      (∃ m, e = .parse m) := by
    intro e0 h0
    rcases profile_wrap_kind e0 with ⟨m, hm⟩ | ⟨m, hm⟩ | ⟨m, hm⟩
    · exact Or.inl ⟨m, by rw [← h0, hm]⟩
    · exact Or.inr (Or.inl ⟨m, by rw [← h0, hm]⟩)
    · exact Or.inr (Or.inr ⟨m, by rw [← h0, hm]⟩)
  unfold get_student_info at he
  rcases hsi : st.session_info with _ | si
  · rw [hsi] at he
    simp only [Except.error.injEq] at he
    exact Or.inl ⟨_, he.symm⟩
  · rw [hsi] at he
    by_cases hfl : si.is_authenticated
    · simp only [hfl, Bool.not_true, Bool.false_eq_true, if_false] at he
      rcases fetch with e0 | ⟨url, page⟩
      · simp only [Except.error.injEq] at he
        exact hw e0 he
      · by_cases hurl : strContains url "sign_in"
        · simp only [hurl, if_true, Except.error.injEq] at he
          exact hw (.sessionExpired "Сессия истекла") he
        · simp only [hurl, Bool.false_eq_true, if_false] at he
          rcases hps : parse_student_info page with e1 | info
          · rw [hps] at he
            simp only [Except.error.injEq] at he
            exact hw e1 he
          · rw [hps] at he
            simp at he
    · simp only [hfl, Bool.not_false, if_true, Except.error.injEq] at he
      exact Or.inl ⟨_, he.symm⟩

/-- C6: lower-layer Network and Parse errors propagate unchanged through
authenticate (whether raised by the CSRF fetch or by the login POST) and
through get_student_info (raised by the profile fetch); and every error a
caller observes from authenticate or get_student_info is one of the five
kinds Network, Authentication, Parse, SessionExpired, Validation — never an
unclassified exception. -/
theorem error_kind_discipline (st : ClientState) (l p : String) (env : AuthEnv)
    (fetch : Except PyErr (String × ProfileHtml)) :
    (∀ e a m, AuthenticationData.make l p = .ok a →
      (e = PyErr.network m ∨ e = PyErr.parse m) →
      ((env.csrf = .error e → (authenticate st l p env).1 = .error e) ∧
       (∀ t, env.csrf = .ok t → env.post = .error e →
         (authenticate st l p env).1 = .error e) ∧
       (is_authenticated st = true → fetch = .error e →
         (get_student_info st fetch).1 = .error e))) ∧
    (∀ e, (authenticate st l p env).1 = .error e → e.isFiveKind = true) ∧
    (∀ e, (get_student_info st fetch).1 = .error e → e.isFiveKind = true) := by
  refine ⟨?_, fun e he => authenticate_error_five st l p env e he, ?_⟩
  · intro e a m hmk hnp
    refine ⟨?_, ?_, ?_⟩
    · intro hc
      unfold authenticate authenticate_try
      rw [hmk, hc]
      rcases hnp with hh | hh <;> subst hh <;> rfl
    · intro t hct hpe
      unfold authenticate authenticate_try
      rw [hmk, hct, hpe]
      rcases hnp with hh | hh <;> subst hh <;> rfl
    · intro hauth hf
      unfold is_authenticated at hauth
      rcases hsi : st.session_info with _ | si
      · rw [hsi] at hauth
        simp at hauth
      · rw [hsi] at hauth
        simp only at hauth
        unfold get_student_info
        rw [hsi, hf]
        simp only [hauth, Bool.not_true, Bool.false_eq_true, if_false]
        rcases hnp with hh | hh <;> subst hh <;> rfl
  · intro e he
    rcases get_student_info_error_shape st fetch e he
      with ⟨m, hm⟩ | ⟨m, hm⟩ | ⟨m, hm⟩ <;> subst hm <;> rfl

/-- C6 (witness): `error_kind_discipline` at a concrete client: a Network
error from the CSRF fetch and a Parse error from the profile fetch both
surface unchanged, and the observed error kinds are among the five. -/
theorem error_kind_discipline_inst :
    (authenticate ⟨true, true, some ⟨"s", "tok", true⟩⟩ "user" "pass"
        ⟨.error (.network "boom"), .error (.network "boom")⟩).1
      = .error (.network "boom") ∧
    (get_student_info ⟨true, true, some ⟨"s", "tok", true⟩⟩
        (.error (.parse "bad html"))).1 = .error (.parse "bad html") ∧
    PyErr.isFiveKind (.network "boom") = true := by
  obtain ⟨hprop, hfive, -⟩ := error_kind_discipline
    ⟨true, true, some ⟨"s", "tok", true⟩⟩ "user" "pass"
    ⟨.error (.network "boom"), .error (.network "boom")⟩
    (.error (.parse "bad html"))
  obtain ⟨hcsrf, -, -⟩ := hprop (.network "boom") ⟨"user", "pass", false⟩
    "boom" rfl (Or.inl rfl)
  obtain ⟨-, -, hfetch⟩ := hprop (.parse "bad html") ⟨"user", "pass", false⟩
    "bad html" rfl (Or.inr rfl)
  exact ⟨hcsrf rfl, hfetch rfl rfl, hfive (.network "boom") (hcsrf rfl)⟩

/-- C7: after collecting the fields, `_parse_student_info` checks the fixed
list of 11 required fields in source order; whenever the first missing one
is f, the parse fails with a Parse error naming f (and (f, none) really is
among the 11 collected required entries); in particular, when the six
required fields before course are present and course was not collected
(e.g. the page lacks the caption), the parse fails with a Parse error
naming course. -/
theorem parse_profile_required_fields (h : ProfileHtml) :
    (∀ f, first_missing (collect h) = some f →
      (f, (none : Option String)) ∈ required_fields (collect h) ∧
      parse_student_info h = .error (.parse (missing_msg f))) ∧
    ((collect h).full_name.isSome = true →
     (collect h).record_book_number.isSome = true →
     (collect h).study_form.isSome = true →
     (collect h).preparation_level.isSome = true →
     (collect h).specialty.isSome = true →
     (collect h).faculty.isSome = true →
     (collect h).course = none →
     parse_student_info h = .error (.parse (missing_msg "course"))) := by
  have main : ∀ f, first_missing (collect h) = some f →
      (f, (none : Option String)) ∈ required_fields (collect h) ∧
      parse_student_info h = .error (.parse (missing_msg f)) := by
    intro f hf
    constructor
    · have hf2 := hf
      unfold first_missing at hf2
      rcases hfind : (required_fields (collect h)).find? (fun p => p.2.isNone)
        with _ | pr
      · rw [hfind] at hf2
        simp at hf2
      · rw [hfind] at hf2
        simp only [Option.map_some'] at hf2
        have hmem := List.mem_of_find?_eq_some hfind
        have hpred := List.find?_some hfind
        have h2 : pr.2 = none := by
          simpa using hpred
        have : pr = (f, (none : Option String)) := by
          rcases pr with ⟨p1, p2⟩
          simp only [Option.some.injEq] at hf2
          simp only at h2
          rw [hf2, h2]
        rw [← this]
        exact hmem
    · simp only [parse_student_info, parse_try, hf, parse_wrap]
  refine ⟨main, fun h1 h2 h3 h4 h5 h6 hc => ?_⟩
  obtain ⟨v1, e1⟩ := Option.isSome_iff_exists.mp h1
  obtain ⟨v2, e2⟩ := Option.isSome_iff_exists.mp h2
  obtain ⟨v3, e3⟩ := Option.isSome_iff_exists.mp h3
  obtain ⟨v4, e4⟩ := Option.isSome_iff_exists.mp h4
  obtain ⟨v5, e5⟩ := Option.isSome_iff_exists.mp h5
  obtain ⟨v6, e6⟩ := Option.isSome_iff_exists.mp h6
  have hfm : first_missing (collect h) = some "course" := by
    simp [first_missing, required_fields, List.find?, e1, e2, e3, e4, e5, e6,
      hc]
  exact (main "course" hfm).2

/-- C7 (witness): `parse_profile_required_fields` at a page that carries all
required labels except the course caption: the parse fails with a Parse
error naming course. -/
theorem parse_profile_required_fields_inst :
    parse_student_info ⟨some (some "Иванов Иван"),
        [("Номер зачетки:", some "12345678"), ("Форма обучения:", some "Очная"),
         ("Уровень подготовки:", some "Бакалавриат"),
         ("Специальность:", some "Информатика"), ("Факультет:", some "ИТ"),
         ("Группа:", some "ИТ-21-1"), ("Форма финансирования:", some "Бюджет"),
         ("Общежитие:", some "Да"), ("Дата окончания:", some "2025-06-30")]⟩
      = .error (.parse (missing_msg "course")) := by
  obtain ⟨-, hcourse⟩ := parse_profile_required_fields ⟨some (some "Иванов Иван"),
    [("Номер зачетки:", some "12345678"), ("Форма обучения:", some "Очная"),
     ("Уровень подготовки:", some "Бакалавриат"),
     ("Специальность:", some "Информатика"), ("Факультет:", some "ИТ"),
     ("Группа:", some "ИТ-21-1"), ("Форма финансирования:", some "Бюджет"),
     ("Общежитие:", some "Да"), ("Дата окончания:", some "2025-06-30")]⟩
  exact hcourse rfl rfl rfl rfl rfl rfl rfl

/-- C8 (counterexample): the claim says a present email field without an
"@" must be rejected, but the validator tests `if v and '@' not in v`: the
empty string is present (not None) and contains no "@", yet construction
succeeds because the empty string is falsy. -/
theorem student_empty_email_accepted :
    some "" ≠ (none : Option String) ∧
    strHasChar "" '@' = false ∧
    ∃ s, StudentInfo.make "Иванов Иван" "12345678" "Очная" "Бакалавриат" none
      "Информатика" "ИТ" "3" "ИТ-21-1" "Бюджет" "Да" "2025-06-30"
      (some "") none none = .ok s :=
  ⟨by simp, rfl, ⟨_, rfl⟩⟩

/-- C8 (amended): with valid required fields, StudentInfo construction fails
with a Validation error when an optional email field (personal or corporate)
is present with a non-empty value containing no "@", succeeds when the email
contains an "@" (keeping the value), and accepts an absent email; a present
but empty email string is treated as absent by the falsy test. -/
theorem student_email_validation (fn rbn sf pl spc fac crs grp fin dorm
    ed : String) (spz pp : Option String)
    (hfn : pyStrip fn ≠ "") (hrbn : pyStrip rbn ≠ "") :
    (∀ s, s ≠ "" → strHasChar s '@' = false →
      StudentInfo.make fn rbn sf pl spz spc fac crs grp fin dorm ed
        (some s) pp none = .error (.validation "Некорректный формат email") ∧
      StudentInfo.make fn rbn sf pl spz spc fac crs grp fin dorm ed
        none pp (some s) = .error (.validation "Некорректный формат email")) ∧
    (∀ s, strHasChar s '@' = true →
      (∃ info, StudentInfo.make fn rbn sf pl spz spc fac crs grp fin dorm ed
        (some s) pp none = .ok info ∧ info.personal_email = some s) ∧
      (∃ info, StudentInfo.make fn rbn sf pl spz spc fac crs grp fin dorm ed
        none pp (some s) = .ok info ∧ info.corporate_email = some s)) ∧
    (∃ info, StudentInfo.make fn rbn sf pl spz spc fac crs grp fin dorm ed
      none pp none = .ok info ∧ info.personal_email = none ∧
      info.corporate_email = none) := by
  have hv1 : validate_full_name fn = .ok (pyStrip fn) := by
    unfold validate_full_name
    rw [if_neg hfn]
  have hv2 : validate_record_book_number rbn = .ok (pyStrip rbn) := by
    unfold validate_record_book_number
    rw [if_neg hrbn]
  have hnone : validate_email_field none = .ok none := rfl
  refine ⟨?_, ?_, ?_⟩
  · intro s hne hat
    have hbad : validate_email_field (some s)
        = .error (.validation "Некорректный формат email") := by
      unfold validate_email_field
      simp [bne_iff_ne, hne, hat]
    constructor
    · simp only [StudentInfo.make, hv1, hv2, hbad]
    · simp only [StudentInfo.make, hv1, hv2, hnone, hbad]
  · intro s hat
    have hgood : validate_email_field (some s) = .ok (some s) := by
      unfold validate_email_field
      simp [hat]
    constructor
    · have heq : StudentInfo.make fn rbn sf pl spz spc fac crs grp fin dorm ed
          (some s) pp none
          = .ok { full_name := pyStrip fn, record_book_number := pyStrip rbn,
                  study_form := sf, preparation_level := pl,
                  specialization := spz, specialty := spc, faculty := fac,
                  course := crs, group := grp, financing_form := fin,
                  dormitory := dorm, end_date := ed,
                  personal_email := some s, personal_phone := pp,
                  corporate_email := none } := by
        simp only [StudentInfo.make, hv1, hv2, hgood, hnone]
      exact ⟨_, heq, rfl⟩
    · have heq : StudentInfo.make fn rbn sf pl spz spc fac crs grp fin dorm ed
          none pp (some s)
          = .ok { full_name := pyStrip fn, record_book_number := pyStrip rbn,
                  study_form := sf, preparation_level := pl,
                  specialization := spz, specialty := spc, faculty := fac,
                  course := crs, group := grp, financing_form := fin,
                  dormitory := dorm, end_date := ed, personal_email := none,
                  personal_phone := pp, corporate_email := some s } := by
        simp only [StudentInfo.make, hv1, hv2, hgood, hnone]
      exact ⟨_, heq, rfl⟩
  · have heq : StudentInfo.make fn rbn sf pl spz spc fac crs grp fin dorm ed
        none pp none
        = .ok { full_name := pyStrip fn, record_book_number := pyStrip rbn,
                study_form := sf, preparation_level := pl,
                specialization := spz, specialty := spc, faculty := fac,
                course := crs, group := grp, financing_form := fin,
                dormitory := dorm, end_date := ed, personal_email := none,
                personal_phone := pp, corporate_email := none } := by
      simp only [StudentInfo.make, hv1, hv2, hnone]
    exact ⟨_, heq, rfl, rfl⟩

/-- C8 (witness): `student_email_validation` at concrete fields: "noatsign"
is rejected as personal or corporate email, "ivanov@example.com" is
accepted, and absent emails are accepted. -/
theorem student_email_validation_inst :
    StudentInfo.make "Иванов Иван" "12345678" "Очная" "Бакалавриат" none
        "Информатика" "ИТ" "3" "ИТ-21-1" "Бюджет" "Да" "2025-06-30"
        (some "noatsign") none none
      = .error (.validation "Некорректный формат email") ∧
    (∃ info, StudentInfo.make "Иванов Иван" "12345678" "Очная" "Бакалавриат"
        none "Информатика" "ИТ" "3" "ИТ-21-1" "Бюджет" "Да" "2025-06-30"
        (some "ivanov@example.com") none none
      = .ok info ∧ info.personal_email = some "ivanov@example.com") ∧
    (∃ info, StudentInfo.make "Иванов Иван" "12345678" "Очная" "Бакалавриат"
        none "Информатика" "ИТ" "3" "ИТ-21-1" "Бюджет" "Да" "2025-06-30"
        none none none = .ok info ∧ info.personal_email = none) := by
  obtain ⟨hbad, hgood, habsent⟩ := student_email_validation "Иванов Иван"
    "12345678" "Очная" "Бакалавриат" "Информатика" "ИТ" "3" "ИТ-21-1"
    "Бюджет" "Да" "2025-06-30" none none (by decide) (by decide)
  obtain ⟨info, hi1, hi2⟩ := (hgood "ivanov@example.com" (by decide)).1
  obtain ⟨info2, hj1, hj2, -⟩ := habsent
  exact ⟨(hbad "noatsign" (by decide) (by decide)).1, ⟨info, hi1, hi2⟩,
         ⟨info2, hj1, hj2⟩⟩

theorem get_student_info_state (st : ClientState)
    (fetch : Except PyErr (String × ProfileHtml)) :
    (get_student_info st fetch).2 = st ∨
    ∃ si, st.session_info = some si ∧ si.is_authenticated = true ∧
      (get_student_info st fetch).2
        = { st with
            session_info := some { si with is_authenticated := false } } := by
  unfold get_student_info
  rcases hsi : st.session_info with _ | si
  · left
    rfl
  · by_cases hfl : si.is_authenticated
    · simp only [hfl, Bool.not_true, Bool.false_eq_true, if_false]
      rcases fetch with e0 | ⟨url, page⟩
      · left
        rfl
      · by_cases hurl : strContains url "sign_in"
        · right
          exact ⟨si, rfl, hfl, by simp only [hurl, if_true]⟩
        · simp only [hurl, Bool.false_eq_true, if_false]
          rcases parse_student_info page with e1 | info
          · left
            rfl
          · left
            rfl
    · left
      simp only [hfl, Bool.not_false, if_true]

/-- C9: SessionInfo construction only succeeds with a non-empty (stripped)
account identifier and anti-forgery token, so the invariant "an
authenticated session carries non-empty api_id and csrf_token" is
established at construction; it is preserved by authenticate,
get_student_info and close, and the only session mutation get_student_info
ever performs is flipping the authenticated flag to false. -/
theorem session_invariant_spec (st : ClientState) (l p : String)
    (env : AuthEnv) (fetch : Except PyErr (String × ProfileHtml)) :
    (∀ a c b s, SessionInfo.make a c b = .ok s →
      s.api_id ≠ "" ∧ s.csrf_token ≠ "") ∧
    (session_invariant st → session_invariant (authenticate st l p env).2) ∧
    (session_invariant st → session_invariant (get_student_info st fetch).2) ∧
    (session_invariant st → session_invariant (close st)) ∧
    ((get_student_info st fetch).2.session_info = st.session_info ∨
     ∃ si, st.session_info = some si ∧
       (get_student_info st fetch).2.session_info
         = some { si with is_authenticated := false }) := by
  refine ⟨?_, ?_, ?_, ?_, ?_⟩
  · intro a c b s hs
    obtain ⟨hval, ha, hc⟩ := SessionInfo.make_ok_spec a c b s hs
    subst hval
    exact ⟨ha, hc⟩
  · intro hinv
    rcases hres : (authenticate st l p env).1 with e | s
    · rw [(authenticate_state st l p env).1 e hres]
      exact hinv
    · obtain ⟨hst, -, ha, hc⟩ := (authenticate_state st l p env).2 s hres
      rw [hst]
      intro si hsi hfl
      have hsi2 : some s = some si := hsi
      simp only [Option.some.injEq] at hsi2
      subst hsi2
      exact ⟨ha, hc⟩
  · intro hinv
    rcases get_student_info_state st fetch with hst | ⟨si, hsi, -, hst⟩
    · rw [hst]
      exact hinv
    · rw [hst]
      intro si2 hsi2 hfl2
      simp only [Option.some.injEq] at hsi2
      subst hsi2
      simp at hfl2
  · intro hinv
    have hcl : (close st).session_info = st.session_info := by
      unfold close
      split <;> rfl
    intro si hsi hfl
    exact hinv si (by rw [← hcl, hsi]) hfl
  · rcases get_student_info_state st fetch with hst | ⟨si, hsi, -, hst⟩
    · left
      rw [hst]
    · right
      exact ⟨si, hsi, by rw [hst]⟩

/-- C9 (witness): `session_invariant_spec` at a fresh client that
authenticates successfully: the constructed session has non-empty fields and
the resulting client state satisfies the invariant. -/
theorem session_invariant_spec_inst :
    (SessionInfo.api_id ⟨"s", "tok", true⟩ ≠ "" ∧
     SessionInfo.csrf_token ⟨"s", "tok", true⟩ ≠ "") ∧
    session_invariant ⟨true, true, some ⟨"s", "tok", true⟩⟩ := by
  obtain ⟨hmk, hauth, -, -, -⟩ := session_invariant_spec ⟨true, true, none⟩
    "user" "pass" ⟨.ok "tok", .ok ⟨302, "Found", "", "", some "/ru/s/12345"⟩⟩
    (.error (.network "x"))
  refine ⟨hmk "s" "tok" true ⟨"s", "tok", true⟩ rfl, ?_⟩
  exact hauth (fun si hsi => nomatch hsi)

/-- C10: every error get_student_info raises is SessionExpired, Network or
Parse; in particular a StudentInfo construction failure inside the profile
parser (a Validation error, e.g. a malformed email) does not surface as a
Validation error but is wrapped into a Parse error by the parser's except
clause. -/
theorem get_student_info_error_kinds (st : ClientState)
    (fetch : Except PyErr (String × ProfileHtml)) (hp : ProfileHtml) :
    (∀ e, (get_student_info st fetch).1 = .error e →
      (∃ m, e = .sessionExpired m) ∨ (∃ m, e = .network m) ∨
      (∃ m, e = .parse m)) ∧
    (∀ m, parse_try hp = .error (.validation m) →
      parse_student_info hp
        = .error (.parse ("Ошибка парсинга информации о студенте: "
            ++ m))) := by
  refine ⟨fun e he => get_student_info_error_shape st fetch e he, ?_⟩
  intro m hm
  unfold parse_student_info
  rw [hm]
  rfl

/-- C10 (witness): `get_student_info_error_kinds` at an authenticated client
whose profile fetch raises an unclassified exception (the observed error is
a Parse wrap, hence among the three kinds), and at a page whose required
fields are all present but whose personal email lacks an "@": the
Validation failure surfaces as a Parse error. -/
theorem get_student_info_error_kinds_inst :
    ((∃ m, PyErr.parse ("Ошибка получения информации о студенте: " ++ "boom")
        = .sessionExpired m) ∨
     (∃ m, PyErr.parse ("Ошибка получения информации о студенте: " ++ "boom")
        = .network m) ∨
     (∃ m, PyErr.parse ("Ошибка получения информации о студенте: " ++ "boom")
        = .parse m)) ∧
    parse_student_info ⟨some (some "Иванов Иван"),
        [("Номер зачетки:", some "12345678"), ("Форма обучения:", some "Очная"),
         ("Уровень подготовки:", some "Бакалавриат"),
         ("Специальность:", some "Информатика"), ("Факультет:", some "ИТ"),
         ("Курс:", some "3"), ("Группа:", some "ИТ-21-1"),
         ("Форма финансирования:", some "Бюджет"), ("Общежитие:", some "Да"),
         ("Дата окончания:", some "2025-06-30"),
         ("Личная почта:", some "noatsign")]⟩
      = .error (.parse ("Ошибка парсинга информации о студенте: "
          ++ "Некорректный формат email")) := by
  obtain ⟨hshape, hwrap⟩ := get_student_info_error_kinds
    ⟨true, true, some ⟨"s", "tok", true⟩⟩ (.error (.other "boom"))
    ⟨some (some "Иванов Иван"),
      [("Номер зачетки:", some "12345678"), ("Форма обучения:", some "Очная"),
       ("Уровень подготовки:", some "Бакалавриат"),
       ("Специальность:", some "Информатика"), ("Факультет:", some "ИТ"),
       ("Курс:", some "3"), ("Группа:", some "ИТ-21-1"),
       ("Форма финансирования:", some "Бюджет"), ("Общежитие:", some "Да"),
       ("Дата окончания:", some "2025-06-30"),
       ("Личная почта:", some "noatsign")]⟩
  exact ⟨hshape _ rfl, hwrap "Некорректный формат email" rfl⟩

end MisisId
